import Mathlib

/-!
Verification of the Socket.IO admin instrumentation layer
(`libs/socketio/async_admin.py`, class `InstrumentedAsyncServer`).

The Python source is shallowly embedded: every method relevant to the
claims is translated into a pure Lean function over explicit state.
External collaborators (the underlying Socket.IO server, the engine.io
transport, library functions such as "datetime.isoformat" and
"urllib.parse_qs") are passed in as parameters or environment fields, as
the layer only calls them at its boundary. Python dictionaries are
modelled as association lists with unique keys maintained by
construction; "time.time()" instants are modelled as natural numbers.
-/

namespace SocketIOAdmin

/-! ## Credentials and the authentication setting (`admin_connect`, lines 118-132)

A credentials object sent by a client, and the configured "auth" value,
are Python dictionaries mapping strings to strings; we model them as
association lists and Python dictionary equality ("==") as extensional
equality of the key-to-value functions over both key sets. A client may
also supply no credentials at all (Python "None"), hence `ClientAuth`
is an `Option`.
-/

/-- A credentials dictionary, as an association list. -/
abbrev Cred := List (String × String)

/-- Value of key `k` in dictionary `m` (first binding wins). -/
def dictGet (m : Cred) (k : String) : Option String :=
  m.lookup k

/-- Python dictionary equality "a == b": the two dictionaries bind
exactly the same keys to the same values. -/
def pyDictEq (a b : Cred) : Bool :=
  a.all (fun p => dictGet b p.1 = some p.2) &&
  b.all (fun p => dictGet a p.1 = some p.2)

/-- The credentials supplied by a connecting admin client
(`none` models Python `None`, i.e. no auth payload sent). -/
abbrev ClientAuth := Option Cred

/-- The configured `auth` argument of `InstrumentedAsyncServer.__init__`:
a fixed credentials dictionary, a fixed allow-list of credential
dictionaries, or a (synchronous or asynchronous) predicate. -/
inductive AuthSetting where
  | dict (m : Cred)
  | allowList (l : List Cred)
  | func (f : ClientAuth → Bool)

/-- Python truthiness of the configured auth value, as tested by
`if self.auth:` on line 120: a dictionary or list is truthy exactly
when non-empty, a callable is always truthy. -/
def AuthSetting.truthy : AuthSetting → Bool
  | .dict m => !m.isEmpty
  | .allowList l => !l.isEmpty
  | .func _ => true

/-- Whether the supplied client credentials equal a configured
credentials dictionary, under Python "==" (a `None` payload never
equals a dictionary). -/
def clientMatchesDict (c : ClientAuth) (m : Cred) : Bool :=
  match c with
  | none => false
  | some d => pyDictEq d m

/-- The authentication outcome computed on lines 119-130 of
`admin_connect`: `authenticated` starts `True`; only a truthy auth
setting runs a check (dictionary: equality, list: membership via "==",
callable: its result). -/
def authenticate (auth : AuthSetting) (c : ClientAuth) : Bool :=
  if auth.truthy then
    match auth with
    | .dict m => clientMatchesDict c m
    | .allowList l => l.any (fun m => clientMatchesDict c m)
    | .func f => f c
  else
    true

/-- Observable side effects of a successful `admin_connect` (lines
158-161): the `config` follow-up task is scheduled and a stats task is
started (with a fresh stop event recorded). -/
structure AdminConnectEffects where
  configScheduled : Bool
  statsTaskStarted : Bool
deriving DecidableEq, Repr

/-- `InstrumentedAsyncServer.admin_connect` (lines 118-161): on
authentication failure raises `ConnectionRefusedError("authentication
failed")` before any admin state is created (no config task, no stats
task); on success schedules the `config` task and unconditionally starts
a stats task. -/
def adminConnect (auth : AuthSetting) (c : ClientAuth) :
    Except String AdminConnectEffects :=
  if authenticate auth c then
    .ok { configScheduled := true, statsTaskStarted := true }
  else
    .error "authentication failed"

/-- `InstrumentedAsyncServer.__init__` (lines 21-22): rejects only a
missing (`None`) auth argument, with `ValueError("auth must be
specified")`; any non-`None` value, truthy or not, is accepted. -/
def instrumentedInit (auth : Option AuthSetting) : Except String AuthSetting :=
  match auth with
  | none => .error "auth must be specified"
  | some a => .ok a

/-! ## The Aggregation Buffer (`EventBuffer`)

`EventBuffer` is imported on line 8 from `.admin`, a module of this
repository that is not under `src/`; it is modelled from the spec. -/

/-- Modelled from the spec: `EventBuffer` (imported from
`libs/socketio/admin.py`, which is missing from the sources). Per spec
section 4.5, it is a mapping from counter name to accumulated numeric
value; `push(counterName, amount)` adds the amount to the named
counter, creating it at zero if absent, and `get_and_clear()` returns
the mapping of all accumulated counters and atomically resets them
(counters not pushed since the last clear are omitted). -/
structure EventBuffer where
  buffer : List (String × Nat)
deriving DecidableEq, Repr

/-- The empty buffer (`EventBuffer` construction). -/
def EventBuffer.empty : EventBuffer := ⟨[]⟩

/-- Add `amount` to counter `name` in an association list, creating the
counter at zero if absent. -/
def bumpCounter (l : List (String × Nat)) (name : String) (amount : Nat) :
    List (String × Nat) :=
  match l with
  | [] => [(name, amount)]
  | (k, v) :: rest =>
    if k = name then (k, v + amount) :: rest
    else (k, v) :: bumpCounter rest name amount

/-- Modelled from the spec: `EventBuffer.push(counterName, amount)`. -/
def EventBuffer.push (b : EventBuffer) (name : String) (amount : Nat) :
    EventBuffer :=
  ⟨bumpCounter b.buffer name amount⟩

/-- Modelled from the spec: `EventBuffer.get_and_clear()` returns all
accumulated counters and resets the buffer. -/
def EventBuffer.get_and_clear (b : EventBuffer) :
    List (String × Nat) × EventBuffer :=
  (b.buffer, ⟨[]⟩)

/-- Current accumulated value of a counter (zero when absent). -/
def EventBuffer.get (b : EventBuffer) (name : String) : Nat :=
  (b.buffer.lookup name).getD 0

/-- Sum of all accumulated counter values in the buffer. -/
def EventBuffer.total (b : EventBuffer) : Nat :=
  (b.buffer.map Prod.snd).sum

/-- One operation applied to the Aggregation Buffer. -/
inductive BufOp where
  | push (name : String) (amount : Nat)
  | getAndClear
deriving DecidableEq, Repr

/-- Run a sequence of buffer operations, returning the final buffer,
the sum of all values ever returned by `get_and_clear`, and the sum of
all amounts ever pushed. -/
def runBufOps (b : EventBuffer) : List BufOp → EventBuffer × Nat × Nat
  | [] => (b, 0, 0)
  | .push name amount :: rest =>
    let (b', r, p) := runBufOps (b.push name amount) rest
    (b', r, amount + p)
  | .getAndClear :: rest =>
    let (flushed, b1) := b.get_and_clear
    let (b', r, p) := runBufOps b1 rest
    (b', (flushed.map Prod.snd).sum + r, p)

/-! ## Stats-task lifecycle (`admin_connect` lines 158-161,
`_handle_eio_connect` lines 272-276)

`admin_connect` unconditionally creates a fresh stop event and starts a
new `_emit_server_stats` background task; `_handle_eio_connect` does so
only when `self.stop_stats_event is None`, i.e. when no stats task has
ever been started on this instance. No connection event ever stops a
task, so the number of started tasks is the number of running tasks. -/

/-- A connection event observed by the instrumentation layer: a
successful admin-namespace connection, or an engine.io (transport)
connection. -/
inductive ConnEvent where
  | admin
  | eio
deriving DecidableEq, Repr

/-- Stats-task bookkeeping state: whether `stop_stats_event` has been
assigned (is not `None`), and how many stats tasks have been started
and not stopped. -/
structure StatsTasks where
  started : Bool
  running : Nat
deriving DecidableEq, Repr

/-- The initial state set in `__init__` (lines 37-38):
`stop_stats_event = None`, no task. -/
def StatsTasks.init : StatsTasks := ⟨false, 0⟩

/-- Effect of one connection event on the stats-task state:
`admin_connect` (lines 159-161) always assigns a fresh stop event and
starts a new task; `_handle_eio_connect` (lines 273-276) starts one
only when none has been started. -/
def statsStep (st : StatsTasks) : ConnEvent → StatsTasks
  | .admin => ⟨true, st.running + 1⟩
  | .eio => if st.started then st else ⟨true, st.running + 1⟩

/-- Run a sequence of connection events from a given state. -/
def statsRun (st : StatsTasks) : List ConnEvent → StatsTasks
  | [] => st
  | e :: rest => statsRun (statsStep st e) rest

/-- Number of admin connections in a trace. -/
def countAdmin (tr : List ConnEvent) : Nat :=
  (tr.filter (fun e => e = ConnEvent.admin)).length

/-- Whether the first connection of the trace is a transport
connection (the only situation in which `_handle_eio_connect` starts a
stats task, since afterwards `stop_stats_event` is assigned). -/
def eioFirst : List ConnEvent → Bool
  | ConnEvent.eio :: _ => true
  | _ => false

/-! ## The Stats Publisher loop (`_emit_server_stats`, lines 331-356)

The loop body is: check `stop_stats_event.is_set()` at the top, sleep
for the interval with a plain (non-interruptible) `sio.sleep`, then
publish one `server_stats` message and drain the Discrete Event Queue.
We model the stop signal by `sig : Nat -> Bool`, where `sig j = true`
means the signal has been set by the end of sleep number `j` (the
signal is clear when the loop is entered). The function counts the
`server_stats` messages published; `fuel` bounds the number of
iterations modelled and the theorems supply enough of it for the loop
to have terminated. -/

/-- `_emit_server_stats` as written (lines 335-356): the `k`-th loop
head check observes the signal state after sleep `k - 1`; a set signal
is noticed only there, after the full sleep and the publication that
follows it. Returns the number of `server_stats` messages published
from loop-head state `k` on. -/
def statsLoopCode (sig : Nat → Bool) : Nat → Nat → Nat
  | 0, _ => 0
  | fuel + 1, 0 => 1 + statsLoopCode sig fuel 1
  | fuel + 1, k + 1 =>
    if sig k then 0 else 1 + statsLoopCode sig fuel (k + 2)

/-- Modelled from the spec: the Stats Publisher loop as the spec
demands it, with the in-flight interval sleep interruptible by the
stop signal — a signal set during sleep `k` aborts that sleep and the
loop terminates without publishing for it. Stated for comparison with
`statsLoopCode`. -/
def statsLoopInterruptible (sig : Nat → Bool) : Nat → Nat → Nat
  | 0, _ => 0
  | fuel + 1, k =>
    if sig k then 0 else 1 + statsLoopInterruptible sig fuel (k + 1)

/-- The stop signal that becomes set during sleep number `s` (and
stays set, as `asyncio.Event` is monotone). -/
def sigAt (s : Nat) : Nat → Bool := fun j => s ≤ j

/-! ## Room join and leave interceptors (`_basic_enter_room` lines
230-240, `_basic_leave_room` lines 242-250) and the queue drain
(lines 353-356)

Each interceptor is modelled as the ordered list of primitive actions
it performs: the delegation to the underlying manager method and any
append to `self.admin_queue`. Python truthiness of the `room` argument
is modelled by comparison with the empty string. -/

/-- An entry of the Discrete Event Queue: event name plus the
`(namespace, room, sid, timestamp)` payload tuple. -/
structure QueueEntry where
  event : String
  ns : String
  room : String
  sid : String
  time : String
deriving DecidableEq, Repr

/-- A primitive action performed by a room interceptor, in order. -/
inductive RoomAct where
  | delegateEnter (sid ns room : String)
  | delegateLeave (sid ns room : String)
  | queueAppend (e : QueueEntry)
deriving DecidableEq, Repr

/-- `_basic_enter_room` (lines 230-240): delegates to the underlying
`basic_enter_room` first, then, if the room is truthy (non-empty),
appends a `room_joined` entry to the Discrete Event Queue. `t` is the
ISO rendering of `datetime.now`. -/
def basic_enter_room (sid ns room t : String) : List RoomAct :=
  RoomAct.delegateEnter sid ns room ::
    (if room = "" then []
     else [RoomAct.queueAppend ⟨"room_joined", ns, room, sid, t⟩])

/-- `_basic_leave_room` (lines 242-250): if the room is truthy
(non-empty), appends a `room_left` entry to the Discrete Event Queue,
and only then delegates to the underlying `basic_leave_room`. -/
def basic_leave_room (sid ns room t : String) : List RoomAct :=
  (if room = "" then []
   else [RoomAct.queueAppend ⟨"room_left", ns, room, sid, t⟩]) ++
    [RoomAct.delegateLeave sid ns room]

/-- Does a room-interceptor action trace delegate to the underlying
mutation before anything else? (What the claim asserts of both
interceptors.) -/
def delegatesFirst : List RoomAct → Bool
  | RoomAct.delegateEnter _ _ _ :: _ => true
  | RoomAct.delegateLeave _ _ _ :: _ => true
  | _ => false

/-- A message published on the admin namespace by one iteration of the
Stats Publisher. -/
inductive FlushMsg where
  | serverStats
  | queued (e : QueueEntry)
deriving DecidableEq, Repr

/-- The drain loop of `_emit_server_stats` (lines 353-356): repeatedly
pops the front of `admin_queue` and publishes it, i.e. FIFO order. -/
def drainQueue : List QueueEntry → List FlushMsg
  | [] => []
  | e :: rest => FlushMsg.queued e :: drainQueue rest

/-- One full publication step of the Stats Publisher body (lines
337-356): the `server_stats` message, then the drained queue. -/
def statsFlush (q : List QueueEntry) : List FlushMsg :=
  FlushMsg.serverStats :: drainQueue q

/-! ## Socket snapshots and the dispatch interceptor
(`serialize_socket` lines 358-384, `_trigger_event` lines 186-213)

The external collaborators consulted by these methods — the engine.io
socket table (`eio._get_socket`, which raises `KeyError` for an
unknown transport id), the WSGI environ store (`sio.environ`), the
manager queries, `urllib.parse_qs` and the ISO-8601 time formatter —
are grouped into a `ServerEnv`. The timestamp side-table
(`manager._timestamps`) is the mutable state the layer owns and is
passed explicitly. -/

/-- A Python exception propagated by the layer. -/
inductive PyErr where
  | keyError (key : String)
deriving DecidableEq, Repr

/-- The slice of an engine.io socket object that the layer reads. -/
structure SocketInfo where
  upgraded : Bool
deriving DecidableEq, Repr

/-- A value of the handshake `query` dictionary: `parse_qs` yields a
list per key, and `serialize_socket` unwraps singleton lists. -/
inductive QueryVal where
  | one (v : String)
  | many (vs : List String)
deriving DecidableEq, Repr

/-- External collaborator state and library functions consulted by
`serialize_socket` and `_trigger_event`. -/
structure ServerEnv where
  /-- engine.io socket table; `_get_socket` raises `KeyError` on a
  missing id. -/
  sockets : List (String × SocketInfo)
  /-- `self.sio.environ`: WSGI environ per transport id (`.get`
  defaults to the empty dictionary). -/
  environs : List (String × List (String × String))
  /-- `self.sio.manager.get_rooms(sid, namespace)`. -/
  getRooms : String → String → List String
  /-- `self.sio.manager.eio_sid_from_sid(sid, namespace)`. -/
  eioSidFromSid : String → String → String
  /-- `urllib.parse.parse_qs`. -/
  parseQs : String → List (String × List String)
  /-- `datetime.fromtimestamp(t, timezone.utc).isoformat()`. -/
  iso : Nat → String

/-- `environ.get(key, default)` for a WSGI environ dictionary. -/
def environGet (environ : List (String × String)) (key dflt : String) : String :=
  (environ.lookup key).getD dflt

/-- The `handshake` sub-dictionary of a serialized socket. -/
structure Handshake where
  address : String
  headers : List (String × String)
  query : List (String × QueryVal)
  secure : Bool
  url : String
  issued : Nat
  time : String
deriving DecidableEq, Repr

/-- The serializable descriptor built by `serialize_socket`. -/
structure SerializedSocket where
  id : String
  clientId : String
  transport : String
  nsp : String
  handshake : Handshake
  rooms : List String
deriving DecidableEq, Repr

/-- The timestamp side-table `self.sio.manager._timestamps`. -/
abbrev Timestamps := List (String × Nat)

/-- Dictionary assignment `_timestamps[sid] = t`. -/
def tsInsert (ts : Timestamps) (sid : String) (t : Nat) : Timestamps :=
  (sid, t) :: ts.filter (fun p => p.1 ≠ sid)

/-- Dictionary deletion `del _timestamps[sid]` after a successful
membership test. -/
def tsErase (ts : Timestamps) (sid : String) : Timestamps :=
  ts.filter (fun p => p.1 ≠ sid)

/-- `InstrumentedAsyncServer.serialize_socket` (lines 358-384), for a
transport id already supplied by the caller (every caller in the
sources passes one). Looks up the engine.io socket (a miss raises
`KeyError`), reads the environ with a default of the empty dictionary,
and reads the connect timestamp with an explicit membership test that
makes a stale lookup yield 0 — rendered as `issued = 0` and an empty
`time` string, since `0` is falsy. `buildSocketDescriptor` is the
dictionary literal returned on lines 365-384; `serialize_socket` wraps
it behind the socket lookup of line 361. -/
def buildSocketDescriptor (env : ServerEnv) (ts : Timestamps)
    (sid ns eio_sid : String) (sock : SocketInfo) : SerializedSocket :=
  let environ := (env.environs.lookup eio_sid).getD []
  let tm := (ts.lookup sid).getD 0
  { id := sid
    clientId := eio_sid
    transport := if sock.upgraded then "websocket" else "polling"
    nsp := ns
    handshake :=
      { address := environGet environ "REMOTE_ADDR" ""
        headers := environ.filterMap (fun p =>
          if p.1.startsWith "HTTP_" then
            some ((p.1.drop 5).toLower, p.2)
          else none)
        query := (env.parseQs (environGet environ "QUERY_STRING" "")).map
          (fun p =>
            match p.2 with
            | [v] => (p.1, QueryVal.one v)
            | vs => (p.1, QueryVal.many vs))
        secure := environGet environ "wsgi.url_scheme" "" = "https"
        url := environGet environ "PATH_INFO" ""
        issued := tm * 1000
        time := if tm = 0 then "" else env.iso tm }
    rooms := env.getRooms sid ns }

def serialize_socket (env : ServerEnv) (ts : Timestamps)
    (sid ns eio_sid : String) : Except PyErr SerializedSocket :=
  match env.sockets.lookup eio_sid with
  | none => .error (.keyError eio_sid)
  | some sock => .ok (buildSocketDescriptor env ts sid ns eio_sid sock)

/-- A message published to the admin namespace by the interceptors. -/
inductive AdminMsg where
  | socketConnected (sock : SerializedSocket) (time : String)
  | socketDisconnected (ns sid reason time : String)
  | eventReceived (ns sid : String) (payload : List String) (time : String)
  | eventSent (ns sid : String) (payload : List String) (time : String)
deriving DecidableEq, Repr

/-- An observable step of a wrapped dispatch: a publication on the
admin namespace, or the forwarding call to the original dispatch. -/
inductive TStep where
  | publish (m : AdminMsg)
  | forward
deriving DecidableEq, Repr

/-- `InstrumentedAsyncServer._trigger_event` (lines 186-213), the
wrapped dispatch entry point. Inputs are the event name, namespace,
the first positional argument `sid`, the remaining arguments (for
`disconnect`, `args[1]` is the reason), the current time `t`, and the
outcome `orig` of the original dispatch `self.sio.__trigger_event`.
Returns the ordered steps performed, the updated timestamp side-table,
and the value returned (or exception raised) by the interceptor.

On `connect` the timestamp is recorded, a snapshot is built and
`socket_connected` is published; on `disconnect` the timestamp entry
is deleted — an unguarded `del` that raises `KeyError` when the
identity is absent, before anything is published or forwarded — and
`socket_disconnected` is published; any other event publishes
`event_received`. In every non-raising path the publication precedes
the forwarding call, whose outcome is returned unchanged. -/
def trigger_event {R : Type} (env : ServerEnv) (ts : Timestamps)
    (event ns sid : String) (extra : List String) (t : Nat)
    (orig : Except PyErr R) :
    List TStep × Timestamps × Except PyErr R :=
  if event = "connect" then
    let eio_sid := env.eioSidFromSid sid ns
    let ts1 := tsInsert ts sid t
    match serialize_socket env ts1 sid ns eio_sid with
    | .error e => ([], ts1, .error e)
    | .ok sock =>
      ([.publish (.socketConnected sock (env.iso t)), .forward], ts1, orig)
  else if event = "disconnect" then
    match ts.lookup sid with
    | none => ([], ts, .error (.keyError sid))
    | some _ =>
      ([.publish (.socketDisconnected ns sid (extra.getD 0 "") (env.iso t)),
        .forward], tsErase ts sid, orig)
  else
    ([.publish (.eventReceived ns sid (event :: extra) (env.iso t)),
      .forward], ts, orig)

/-! ## The broadcast interceptor (`_emit`, lines 252-270) -/

/-- The `data` argument of an emit: a tuple of arguments or a single
value (payload items are never inspected by the layer and are modelled
as strings). -/
inductive EmitData where
  | tuple (items : List String)
  | single (item : String)
deriving DecidableEq, Repr

/-- The `event_data` list built on lines 258-259:
`[event] + list(data)` for a tuple, `[event, data]` otherwise. -/
def eventData (event : String) : EmitData → List String
  | .tuple items => event :: items
  | .single item => [event, item]

/-- The `skip_sid` argument: Python `None`, a single sid, or a list of
sids. -/
inductive Skip where
  | noSkip
  | one (s : String)
  | several (l : List String)
deriving DecidableEq, Repr

/-- The normalization on lines 260-261: anything that is not a list is
wrapped into a one-element list (so `None` becomes `[None]`). The
normalized elements live in `Option String` so that `[None]` is
representable; the membership test compares them with plain sids. -/
def normalizeSkip : Skip → List (Option String)
  | .noSkip => [none]
  | .one s => [some s]
  | .several l => l.map some

/-- An observable step of the wrapped `manager.emit`: the delegation
to the underlying broadcast, or one admin publication. -/
inductive EmitStep where
  | delegate
  | publish (m : AdminMsg)
deriving DecidableEq, Repr

/-- `InstrumentedAsyncServer._emit` (lines 252-270): delegates to the
underlying `manager.emit` first; then, unless the target namespace is
the admin namespace itself, publishes one `event_sent` message per
`(sid, eio_sid)` participant pair returned by
`manager.get_participants(namespace, room)` whose sid is not in the
normalized exclusion list. -/
def emit_wrapped (adminNs ns event : String) (data : EmitData)
    (skip : Skip) (participants : List (String × String)) (t : String) :
    List EmitStep :=
  EmitStep.delegate ::
    (if ns = adminNs then []
     else
       (participants.filter (fun p => !(normalizeSkip skip).contains (some p.1))).map
         (fun p => EmitStep.publish
           (.eventSent ns p.1 (eventData event data) t)))

/-! ## Transport traffic counters (`_eio_http_response` lines 285-290,
`_eio_handle_post_request` lines 292-297) -/

/-- The response object returned by the original `eio._ok`, of which
the layer reads only the body. -/
structure OkResponse where
  response : String
deriving DecidableEq, Repr

/-- `_eio_http_response` (lines 285-290): obtains the original
response, then pushes `packetsOut` by one and `bytesOut` by the
response body length; the response is returned unaltered. -/
def eio_http_response (b : EventBuffer) (ret : OkResponse) :
    OkResponse × EventBuffer :=
  (ret, (b.push "packetsOut" 1).push "bytesOut" ret.response.length)

/-- `_eio_handle_post_request` (lines 292-297): after the original
handler returns, pushes `packetsIn` by one and `bytesIn` by
`int(environ.get("CONTENT_LENGTH", 0))` — zero when the header is
absent; the original return value is passed through. -/
def eio_handle_post_request {R : Type} (b : EventBuffer) (ret : R)
    (contentLength : Option Nat) : R × EventBuffer :=
  (ret, (b.push "packetsIn" 1).push "bytesIn" (contentLength.getD 0))

/-! ## Concrete data used to evaluate the model -/

/-- A small concrete collaborator environment: one engine.io socket
"e1" on the polling transport with a plain WSGI environ. -/
def envW : ServerEnv where
  sockets := [("e1", ⟨false⟩)]
  environs := [("e1", [("REMOTE_ADDR", "127.0.0.1"),
                       ("HTTP_HOST", "localhost"),
                       ("PATH_INFO", "/socket.io/")])]
  getRooms := fun _ _ => []
  eioSidFromSid := fun _ _ => "e1"
  parseQs := fun _ => []
  iso := fun t => toString t

/-- A concrete credentials dictionary. -/
def credW : Cred := [("username", "admin"), ("password", "pw")]

/-! ## Helper lemmas about the Aggregation Buffer -/

theorem lookup_bumpCounter_self (n : String) (a : Nat) :
    ∀ l : List (String × Nat),
      (bumpCounter l n a).lookup n = some ((l.lookup n).getD 0 + a)
  | [] => by simp [bumpCounter, List.lookup]
  | (k, v) :: rest => by
    by_cases h : k = n
    · subst h
      simp [bumpCounter, List.lookup]
    · have hb : (n == k) = false := by
        simp [beq_iff_eq]
        exact fun e => h e.symm
      simp [bumpCounter, List.lookup, h, hb,
        lookup_bumpCounter_self n a rest]

theorem lookup_bumpCounter_ne (n m : String) (a : Nat) (h : m ≠ n) :
    ∀ l : List (String × Nat),
      (bumpCounter l n a).lookup m = l.lookup m
  | [] => by
    have hb : (m == n) = false := by simp [beq_iff_eq, h]
    simp [bumpCounter, List.lookup, hb]
  | (k, v) :: rest => by
    by_cases hk : k = n
    · subst hk
      have hb : (m == k) = false := by simp [beq_iff_eq, h]
      simp [bumpCounter, List.lookup, hb]
    · simp [bumpCounter, List.lookup, hk, lookup_bumpCounter_ne n m a h rest]

theorem sum_bumpCounter (n : String) (a : Nat) :
    ∀ l : List (String × Nat),
      ((bumpCounter l n a).map Prod.snd).sum = (l.map Prod.snd).sum + a
  | [] => by simp [bumpCounter]
  | (k, v) :: rest => by
    by_cases h : k = n
    · subst h
      simp [bumpCounter]
      omega
    · simp [bumpCounter, h, sum_bumpCounter n a rest]
      omega

theorem get_push_self (b : EventBuffer) (n : String) (a : Nat) :
    (b.push n a).get n = b.get n + a := by
  simp [EventBuffer.get, EventBuffer.push, lookup_bumpCounter_self]

theorem get_push_ne (b : EventBuffer) (n m : String) (a : Nat) (h : m ≠ n) :
    (b.push n a).get m = b.get m := by
  simp [EventBuffer.get, EventBuffer.push, lookup_bumpCounter_ne n m a h]

theorem total_push (b : EventBuffer) (n : String) (a : Nat) :
    (b.push n a).total = b.total + a := by
  simp [EventBuffer.total, EventBuffer.push, sum_bumpCounter]

theorem runBufOps_conservation :
    ∀ (ops : List BufOp) (b : EventBuffer),
      (runBufOps b ops).2.1 + ((runBufOps b ops).1).total =
        b.total + (runBufOps b ops).2.2
  | [], b => by simp [runBufOps]
  | .push n a :: rest, b => by
    have ih := runBufOps_conservation rest (b.push n a)
    rw [total_push] at ih
    simp only [runBufOps]
    rcases h : runBufOps (b.push n a) rest with ⟨b', r, p⟩
    rw [h] at ih
    simp only at ih ⊢
    omega
  | .getAndClear :: rest, b => by
    have ih := runBufOps_conservation rest ⟨[]⟩
    simp only [runBufOps, EventBuffer.get_and_clear]
    rcases h : runBufOps ⟨[]⟩ rest with ⟨b', r, p⟩
    rw [h] at ih
    simp only [EventBuffer.total, List.map_nil, List.sum_nil] at ih ⊢
    omega

theorem runBufOps_ends_clear :
    ∀ (ops : List BufOp) (b : EventBuffer),
      (runBufOps b (ops ++ [BufOp.getAndClear])).1 = ⟨[]⟩
  | [], b => by simp [runBufOps, EventBuffer.get_and_clear]
  | .push n a :: rest, b => by
    simpa [runBufOps] using runBufOps_ends_clear rest (b.push n a)
  | .getAndClear :: rest, b => by
    simpa [runBufOps, EventBuffer.get_and_clear] using
      runBufOps_ends_clear rest ⟨[]⟩

/-! ## Claim theorems -/

/-- C8: for every sequence of pushes interleaved with get-and-clear
operations, the values already read plus the values still pending in
the buffer account exactly for every amount ever pushed (no push lost,
no value read twice); in particular, whenever the sequence ends with a
get-and-clear, the sum of all values ever returned equals the sum of
all amounts ever pushed; and a get-and-clear immediately following
another get-and-clear with no intervening pushes returns the empty
mapping. -/
theorem event_buffer_conservation :
    (∀ (b : EventBuffer) (ops : List BufOp),
      (runBufOps b ops).2.1 + ((runBufOps b ops).1).total =
        b.total + (runBufOps b ops).2.2) ∧
    (∀ ops : List BufOp,
      (runBufOps EventBuffer.empty (ops ++ [BufOp.getAndClear])).2.1 =
        (runBufOps EventBuffer.empty (ops ++ [BufOp.getAndClear])).2.2) ∧
    (∀ b : EventBuffer, ((b.get_and_clear).2.get_and_clear).1 = []) := by
  refine ⟨fun b ops => runBufOps_conservation ops b, fun ops => ?_, fun b => rfl⟩
  have h1 := runBufOps_conservation (ops ++ [BufOp.getAndClear]) EventBuffer.empty
  rw [runBufOps_ends_clear ops EventBuffer.empty] at h1
  simpa [EventBuffer.total, EventBuffer.empty] using h1

/-- C9: producing a transport response increments the packets-out
counter by exactly one and the bytes-out counter by exactly the
response body length, leaving every other counter untouched and
returning the response unaltered; handling an inbound request
increments packets-in by one and bytes-in by the declared content
length, with zero when the content length is absent. -/
theorem transport_counter_increments (b : EventBuffer) (ret : OkResponse)
    {R : Type} (pret : R) (n : Nat) :
    ((eio_http_response b ret).1 = ret) ∧
    ((eio_http_response b ret).2.get "packetsOut" = b.get "packetsOut" + 1) ∧
    ((eio_http_response b ret).2.get "bytesOut" =
      b.get "bytesOut" + ret.response.length) ∧
    (∀ name : String, name ≠ "packetsOut" → name ≠ "bytesOut" →
      (eio_http_response b ret).2.get name = b.get name) ∧
    ((eio_handle_post_request b pret (some n)).1 = pret) ∧
    ((eio_handle_post_request b pret (some n)).2.get "packetsIn" =
      b.get "packetsIn" + 1) ∧
    ((eio_handle_post_request b pret (some n)).2.get "bytesIn" =
      b.get "bytesIn" + n) ∧
    ((eio_handle_post_request b pret none).2.get "bytesIn" =
      b.get "bytesIn") := by
  refine ⟨rfl, ?_, ?_, ?_, rfl, ?_, ?_, ?_⟩
  · rw [eio_http_response]
    rw [get_push_ne _ _ _ _ (by decide), get_push_self]
  · rw [eio_http_response]
    rw [get_push_self, get_push_ne _ _ _ _ (by decide)]
  · intro name h1 h2
    rw [eio_http_response]
    rw [get_push_ne _ _ _ _ h2, get_push_ne _ _ _ _ h1]
  · rw [eio_handle_post_request]
    rw [get_push_ne _ _ _ _ (by decide), get_push_self]
  · rw [eio_handle_post_request]
    rw [get_push_self, get_push_ne _ _ _ _ (by decide)]
    simp
  · rw [eio_handle_post_request]
    rw [get_push_self, get_push_ne _ _ _ _ (by decide)]
    simp

/-- C9 witness: a concrete 100-byte response bumps bytes-out by 100 and
packets-out by 1; a request without a content length leaves bytes-in at
its old value. -/
theorem transport_counter_increments_witness :
    ((eio_http_response ⟨[("bytesOut", 7)]⟩
        ⟨String.mk (List.replicate 100 'x')⟩).2.get "bytesOut" = 107) ∧
    ((eio_http_response ⟨[("bytesOut", 7)]⟩
        ⟨String.mk (List.replicate 100 'x')⟩).2.get "packetsOut" = 1) ∧
    ((eio_handle_post_request ⟨[("bytesOut", 7)]⟩ (0 : Nat) none).2.get
        "bytesIn" = 0) := by
  have h := transport_counter_increments (R := Nat) ⟨[("bytesOut", 7)]⟩
    ⟨String.mk (List.replicate 100 'x')⟩ 0 0
  refine ⟨?_, ?_, ?_⟩
  · rw [h.2.2.1]; decide
  · rw [h.2.1]; decide
  · rw [h.2.2.2.2.2.2.2]; decide

/-- C10: construction rejects only a missing (`None`) authenticator;
any non-`None` authenticator, truthy or not, is accepted at setup; and
a falsy authenticator (empty credentials map or empty allow-list)
disables authentication, so every admin connection attempt is accepted
regardless of the supplied credentials. -/
theorem init_rejects_only_missing_auth :
    (instrumentedInit none = .error "auth must be specified") ∧
    (∀ a : AuthSetting, instrumentedInit (some a) = .ok a) ∧
    (∀ (a : AuthSetting) (c : ClientAuth), a.truthy = false →
      adminConnect a c = .ok ⟨true, true⟩) := by
  refine ⟨rfl, fun a => rfl, fun a c h => ?_⟩
  simp [adminConnect, authenticate, h]

/-- C10 witness: an empty credentials map is accepted at construction
and then every connection attempt is accepted, here one that supplies
no credentials at all. -/
theorem init_rejects_only_missing_auth_witness :
    (instrumentedInit (some (.dict [])) = .ok (.dict [])) ∧
    (adminConnect (.dict []) none = .ok ⟨true, true⟩) :=
  ⟨init_rejects_only_missing_auth.2.1 (.dict []),
   init_rejects_only_missing_auth.2.2 (.dict []) none rfl⟩

/-- C3 counterexample: against the empty fixed credentials map, an
attempt whose credentials do not equal the configured map is accepted
anyway (the truthiness test on the auth setting skips the whole check),
refuting "accepted exactly when the supplied credentials equal the
configured map" as stated for every fixed credentials map. -/
theorem empty_auth_map_accepts_mismatched_credentials :
    (adminConnect (.dict []) (some [("username", "x")]) = .ok ⟨true, true⟩) ∧
    (clientMatchesDict (some [("username", "x")]) [] = false) := by
  exact ⟨rfl, rfl⟩

/-- C3 (amended): for every NON-EMPTY fixed credentials map, an admin
connection attempt is accepted exactly when the supplied credentials
equal the configured map under dictionary equality; on any mismatch
the attempt is rejected with the "authentication failed" signal and no
admin state is created — no config task is scheduled, so no config
message is ever sent to that connection. -/
theorem admin_connect_dict_auth (m : Cred) (c : ClientAuth) (h : m ≠ []) :
    adminConnect (.dict m) c =
      (if clientMatchesDict c m then .ok ⟨true, true⟩
       else .error "authentication failed") := by
  match m, h with
  | (k, v) :: rest, _ =>
    simp only [adminConnect, authenticate, AuthSetting.truthy, List.isEmpty,
      Bool.not_false, if_true]

/-- C3 witness: matching credentials against a concrete non-empty map
are accepted; mismatching ones are rejected with the authentication
failure signal. -/
theorem admin_connect_dict_auth_witness :
    (adminConnect (.dict credW) (some credW) = .ok ⟨true, true⟩) ∧
    (adminConnect (.dict credW) (some [("username", "x")]) =
      .error "authentication failed") := by
  constructor
  · rw [admin_connect_dict_auth credW (some credW) (by decide)]
    rw [if_pos (by decide)]
  · rw [admin_connect_dict_auth credW (some [("username", "x")]) (by decide)]
    rw [if_neg (by decide)]

/-! ## Stats-task lemmas (C1) -/

theorem statsRun_of_started :
    ∀ (tr : List ConnEvent) (st : StatsTasks), st.started = true →
      (statsRun st tr).running = st.running + countAdmin tr ∧
        (statsRun st tr).started = true
  | [], st, h => by simp [statsRun, countAdmin, h]
  | .admin :: rest, st, h => by
    have ih := statsRun_of_started rest ⟨true, st.running + 1⟩ rfl
    simp only [statsRun, statsStep] at ih ⊢
    simp only [countAdmin, List.filter] at ih ⊢
    refine ⟨?_, ih.2⟩
    rw [ih.1]
    simp [countAdmin]
    omega
  | .eio :: rest, st, h => by
    have ih := statsRun_of_started rest st h
    simp only [statsRun, statsStep, h, if_true]
    simpa [countAdmin, List.filter] using ih

/-- C1 counterexample: two successive (authenticated) admin
connections leave two stats tasks running concurrently — `admin_connect`
starts a task unconditionally — refuting "subsequent admin connections
do not start a second concurrent stats task". -/
theorem second_admin_connection_starts_second_stats_task :
    (statsRun StatsTasks.init [ConnEvent.admin, ConnEvent.admin]).running = 2 ∧
    ¬((statsRun StatsTasks.init
        [ConnEvent.admin, ConnEvent.admin]).running ≤ 1) := by
  exact ⟨rfl, by decide⟩

/-- C1 (amended): a transport connection starts a stats task only when
none has been started yet, but every successful admin connection
unconditionally starts a new stats task; over any sequence of
connections the number of concurrently running stats tasks equals the
number of admin connections, plus one when a transport connection
arrived before any admin connection. -/
theorem stats_tasks_started_count (tr : List ConnEvent) :
    (statsRun StatsTasks.init tr).running =
      countAdmin tr + (if eioFirst tr then 1 else 0) := by
  match tr with
  | [] => rfl
  | .admin :: rest =>
    have h := (statsRun_of_started rest ⟨true, 1⟩ rfl).1
    have e1 : statsStep StatsTasks.init ConnEvent.admin = ⟨true, 1⟩ := rfl
    simp only [statsRun, e1]
    rw [h]
    simp [countAdmin, eioFirst, List.filter]
    omega
  | .eio :: rest =>
    have h := (statsRun_of_started rest ⟨true, 1⟩ rfl).1
    have e1 : statsStep StatsTasks.init ConnEvent.eio = ⟨true, 1⟩ := rfl
    simp only [statsRun, e1]
    rw [h]
    simp [countAdmin, eioFirst, List.filter]
    omega

/-! ## Stats Publisher loop lemmas (C2) -/

theorem statsLoopCode_from (s : Nat) :
    ∀ (fuel k : Nat), k ≤ s → s - k < fuel →
      statsLoopCode (sigAt s) fuel (k + 1) = s - k
  | 0, k, _, hf => by omega
  | fuel + 1, k, hk, hf => by
    by_cases h : s ≤ k
    · have : k = s := by omega
      subst this
      simp [statsLoopCode, sigAt]
    · have hsig : sigAt s k = false := by
        simp [sigAt]
        omega
      have ih := statsLoopCode_from s fuel (k + 1) (by omega) (by omega)
      simp only [statsLoopCode, hsig, Bool.false_eq_true, if_false]
      rw [ih]
      omega

theorem statsLoopInterruptible_from (s : Nat) :
    ∀ (fuel k : Nat), k ≤ s → s - k < fuel →
      statsLoopInterruptible (sigAt s) fuel k = s - k
  | 0, k, _, hf => by omega
  | fuel + 1, k, hk, hf => by
    by_cases h : s ≤ k
    · have : k = s := by omega
      subst this
      simp [statsLoopInterruptible, sigAt]
    · have hsig : sigAt s k = false := by
        simp [sigAt]
        omega
      have ih := statsLoopInterruptible_from s fuel (k + 1) (by omega) (by omega)
      simp only [statsLoopInterruptible, hsig, Bool.false_eq_true, if_false]
      rw [ih]
      omega

/-- C2 counterexample: with the stop signal set during the very first
interval sleep, the loop as written still publishes one `server_stats`
message (the signal is examined only at the next loop head, after the
sleep and the publication), while the interruptible-sleep behavior the
claim states would publish none — refuting "the in-flight interval
sleep is interruptible by the stop signal rather than the signal being
checked only after the sleep completes". -/
theorem server_stats_emitted_after_stop_signal :
    (statsLoopCode (sigAt 0) 2 0 = 1) ∧
    (statsLoopInterruptible (sigAt 0) 2 0 = 0) := by
  exact ⟨rfl, rfl⟩

/-- C2 (amended): while the Stats Publisher runs it publishes exactly
one `server_stats` message per interval tick, and the total number of
publications is finite once the stop signal is set — but the signal is
checked only at the top of each iteration, before the plain interval
sleep: a signal set during sleep number `s` does not interrupt that
sleep, and exactly `s + 1` messages are published (one more, at the
end of the in-flight sleep, after the signal is set), where the
interruptible loop demanded by the spec would publish `s`. After the
loop terminates (the awaited task completes) no further `server_stats`
message is published. -/
theorem stats_loop_tick_count (s fuel : Nat) (h : s + 2 ≤ fuel) :
    (statsLoopCode (sigAt s) fuel 0 = s + 1) ∧
    (statsLoopInterruptible (sigAt s) fuel 0 = s) := by
  match fuel, h with
  | fuel + 1, h =>
    constructor
    · have h0 := statsLoopCode_from s fuel 0 (by omega) (by omega)
      simp only [Nat.zero_add, Nat.sub_zero] at h0
      simp only [statsLoopCode]
      omega
    · have h0 := statsLoopInterruptible_from s (fuel + 1) 0 (by omega) (by omega)
      omega

/-- C2 witness: with the stop signal set during sleep number 3 and
ample fuel, the loop as written publishes exactly 4 `server_stats`
messages and the interruptible variant exactly 3. -/
theorem stats_loop_tick_count_witness :
    (statsLoopCode (sigAt 3) 10 0 = 4) ∧
    (statsLoopInterruptible (sigAt 3) 10 0 = 3) :=
  stats_loop_tick_count 3 10 (by decide)

/-! ## Room interceptor theorems (C4) -/

theorem drainQueue_eq_map : ∀ q : List QueueEntry,
    drainQueue q = q.map FlushMsg.queued
  | [] => rfl
  | e :: rest => by simp [drainQueue, drainQueue_eq_map rest]

/-- C4 counterexample: for a non-empty room, `_basic_leave_room`
appends the `room_left` entry to the Discrete Event Queue BEFORE
delegating to the underlying membership mutation, refuting "for every
room-leave operation, the interceptor first delegates to the underlying
membership mutation and then appends". -/
theorem leave_room_appends_before_delegating :
    (basic_leave_room "c1" "/chat" "general" "t0" =
      [RoomAct.queueAppend ⟨"room_left", "/chat", "general", "c1", "t0"⟩,
       RoomAct.delegateLeave "c1" "/chat" "general"]) ∧
    (delegatesFirst (basic_leave_room "c1" "/chat" "general" "t0") = false) := by
  exact ⟨rfl, rfl⟩

/-- C4 (amended): the room-JOIN interceptor first delegates to the
underlying membership mutation and then, if and only if the room
identifier is non-empty, appends a `(room_joined, (namespace, room,
sid, timestamp))` entry to the Discrete Event Queue; the room-LEAVE
interceptor appends its `room_left` entry (again iff the room is
non-empty) BEFORE delegating. Entries are never published immediately:
they are delivered in occurrence (FIFO) order immediately after the
next `server_stats` flush. -/
theorem room_interceptor_traces (sid ns room t : String) :
    (delegatesFirst (basic_enter_room sid ns room t) = true) ∧
    (room ≠ "" → basic_enter_room sid ns room t =
      [RoomAct.delegateEnter sid ns room,
       RoomAct.queueAppend ⟨"room_joined", ns, room, sid, t⟩]) ∧
    (room = "" → basic_enter_room sid ns room t =
      [RoomAct.delegateEnter sid ns room]) ∧
    (room ≠ "" → basic_leave_room sid ns room t =
      [RoomAct.queueAppend ⟨"room_left", ns, room, sid, t⟩,
       RoomAct.delegateLeave sid ns room]) ∧
    (room = "" → basic_leave_room sid ns room t =
      [RoomAct.delegateLeave sid ns room]) ∧
    (∀ q : List QueueEntry, statsFlush q =
      FlushMsg.serverStats :: q.map FlushMsg.queued) := by
  refine ⟨?_, fun h => ?_, fun h => ?_, fun h => ?_, fun h => ?_, fun q => ?_⟩
  · by_cases h : room = "" <;> simp [basic_enter_room, delegatesFirst, h]
  · simp [basic_enter_room, h]
  · simp [basic_enter_room, h]
  · simp [basic_leave_room, h]
  · simp [basic_leave_room, h]
  · simp [statsFlush, drainQueue_eq_map]

/-- C4 witness: a concrete join of room "general" delegates first and
queues one entry, which the next flush delivers right after the
`server_stats` message. -/
theorem room_interceptor_traces_witness :
    (basic_enter_room "c1" "/chat" "general" "t0" =
      [RoomAct.delegateEnter "c1" "/chat" "general",
       RoomAct.queueAppend ⟨"room_joined", "/chat", "general", "c1", "t0"⟩]) ∧
    (statsFlush [⟨"room_joined", "/chat", "general", "c1", "t0"⟩] =
      [FlushMsg.serverStats,
       FlushMsg.queued ⟨"room_joined", "/chat", "general", "c1", "t0"⟩]) := by
  have h := room_interceptor_traces "c1" "/chat" "general" "t0"
  exact ⟨h.2.1 (by decide), (h.2.2.2.2.2 _).trans rfl⟩

/-! ## Dispatch interceptor theorems (C5, C6) -/

theorem serialize_ok_of_some (env : ServerEnv) (ts : Timestamps)
    (sid ns eio_sid : String) (h : (env.sockets.lookup eio_sid).isSome) :
    ∃ s, serialize_socket env ts sid ns eio_sid = Except.ok s := by
  unfold serialize_socket
  cases hh : env.sockets.lookup eio_sid with
  | none => rw [hh] at h; simp at h
  | some sock => exact ⟨_, rfl⟩

theorem serialize_socket_eq (env : ServerEnv) (ts : Timestamps)
    (sid ns eio_sid : String) (sock : SocketInfo)
    (hh : env.sockets.lookup eio_sid = some sock) :
    serialize_socket env ts sid ns eio_sid =
      Except.ok (buildSocketDescriptor env ts sid ns eio_sid sock) := by
  unfold serialize_socket
  rw [hh]

theorem trigger_event_disconnect_eq {R : Type} (env : ServerEnv)
    (ts : Timestamps) (ns sid : String) (extra : List String) (t : Nat)
    (orig : Except PyErr R) (v : Nat) (hl : ts.lookup sid = some v) :
    trigger_event env ts "disconnect" ns sid extra t orig =
      ([TStep.publish (AdminMsg.socketDisconnected ns sid (extra.getD 0 "")
          (env.iso t)), TStep.forward], tsErase ts sid, orig) := by
  unfold trigger_event
  rw [if_neg (by decide : ¬("disconnect" = "connect")), if_pos rfl, hl]

/-- C5: for every event dispatched through the wrapped dispatch entry
point (provided the interceptor itself does not raise: for `connect`
the transport socket is known, for `disconnect` the timestamp entry is
present), exactly one admin notification is published strictly before
the event is forwarded to the original dispatch; the interceptor
returns exactly the outcome of the original dispatch — value or
exception — unchanged; and the publication is identical whatever that
outcome is (a notification already published stands even if the
original handler fails). -/
theorem trigger_event_publish_before_forward {R : Type} (env : ServerEnv)
    (ts : Timestamps) (event ns sid : String) (extra : List String) (t : Nat)
    (orig orig2 : Except PyErr R)
    (hconn : event = "connect" →
      (env.sockets.lookup (env.eioSidFromSid sid ns)).isSome)
    (hdisc : event = "disconnect" → (ts.lookup sid).isSome) :
    (∃ m, (trigger_event env ts event ns sid extra t orig).1 =
      [TStep.publish m, TStep.forward]) ∧
    ((trigger_event env ts event ns sid extra t orig).2.2 = orig) ∧
    ((trigger_event env ts event ns sid extra t orig).1 =
      (trigger_event env ts event ns sid extra t orig2).1) := by
  by_cases h1 : event = "connect"
  · subst h1
    obtain ⟨sock, hs⟩ := serialize_ok_of_some env (tsInsert ts sid t) sid ns
      (env.eioSidFromSid sid ns) (hconn rfl)
    simp only [trigger_event, if_pos rfl, hs]
    exact ⟨⟨_, rfl⟩, rfl, rfl⟩
  · by_cases h2 : event = "disconnect"
    · subst h2
      cases hl : ts.lookup sid with
      | none => rw [hl] at hdisc; simp at hdisc
      | some v =>
        rw [trigger_event_disconnect_eq env ts ns sid extra t orig v hl,
          trigger_event_disconnect_eq env ts ns sid extra t orig2 v hl]
        exact ⟨⟨_, rfl⟩, rfl, rfl⟩
    · unfold trigger_event
      rw [if_neg h1, if_neg h2, if_neg h1, if_neg h2]
      exact ⟨⟨_, rfl⟩, rfl, rfl⟩

/-- C5 witness: a concrete non-lifecycle event is announced as
`event_received` before forwarding, the original outcome is returned
unchanged, and the publication is the same whether the original
dispatch succeeds or raises. -/
theorem trigger_event_publish_before_forward_witness :
    (∃ m, (trigger_event envW [("c1", 5)] "message" "/chat" "c1" ["hello"] 7
        (Except.ok (0 : Nat))).1 = [TStep.publish m, TStep.forward]) ∧
    ((trigger_event envW [("c1", 5)] "message" "/chat" "c1" ["hello"] 7
        (Except.ok (0 : Nat))).2.2 = Except.ok (0 : Nat)) ∧
    ((trigger_event envW [("c1", 5)] "message" "/chat" "c1" ["hello"] 7
        (Except.ok (0 : Nat))).1 =
      (trigger_event envW [("c1", 5)] "message" "/chat" "c1" ["hello"] 7
        (Except.error (PyErr.keyError "boom") : Except PyErr Nat)).1) :=
  trigger_event_publish_before_forward envW [("c1", 5)] "message" "/chat" "c1"
    ["hello"] 7 (Except.ok 0) (Except.error (PyErr.keyError "boom"))
    (fun h => absurd h (by decide)) (fun h => absurd h (by decide))

/-- C6 counterexample: after a connection has disconnected (its
identity is absent from the timestamp side-table), dispatching a
further `disconnect` for it makes the interceptor raise `KeyError` —
the unguarded `del self.sio.manager._timestamps[sid]` — before
publishing or forwarding anything, refuting "no operation of the layer
raises on such a stale lookup". -/
theorem disconnect_del_raises_on_stale_sid :
    ((trigger_event envW ([] : Timestamps) "disconnect" "/chat" "c1"
        ["transport close"] 7 (Except.ok (0 : Nat))).2.2 =
      Except.error (PyErr.keyError "c1")) ∧
    ((trigger_event envW ([] : Timestamps) "disconnect" "/chat" "c1"
        ["transport close"] 7 (Except.ok (0 : Nat))).1 = []) := by
  exact ⟨rfl, rfl⟩

/-- C6 (amended): a timestamp lookup during snapshot serialization for
an identity absent from the side-table is a non-fatal miss — the
snapshot is built successfully with `issued = 0` and an empty `time`
string; however, the disconnect branch of the wrapped dispatch removes
the timestamp entry with an unguarded deletion, which raises `KeyError`
(before publishing or forwarding anything) when the identity is
already absent. -/
theorem stale_timestamp_lookup {R : Type} (env : ServerEnv) (ts : Timestamps)
    (sid ns eio_sid : String) (extra : List String) (t : Nat)
    (orig : Except PyErr R)
    (hsock : (env.sockets.lookup eio_sid).isSome)
    (hstale : ts.lookup sid = none) :
    (∃ s, serialize_socket env ts sid ns eio_sid = Except.ok s ∧
      s.handshake.issued = 0 ∧ s.handshake.time = "") ∧
    ((trigger_event env ts "disconnect" ns sid extra t orig).1 = [] ∧
     (trigger_event env ts "disconnect" ns sid extra t orig).2.2 =
       Except.error (PyErr.keyError sid)) := by
  constructor
  · cases hh : env.sockets.lookup eio_sid with
    | none => rw [hh] at hsock; simp at hsock
    | some sock =>
      refine ⟨buildSocketDescriptor env ts sid ns eio_sid sock,
        serialize_socket_eq env ts sid ns eio_sid sock hh, ?_, ?_⟩
      · simp [buildSocketDescriptor, hstale]
      · simp [buildSocketDescriptor, hstale]
  · simp only [trigger_event, if_neg (by decide : ¬("disconnect" = "connect")),
      if_pos rfl, hstale]
    exact ⟨rfl, rfl⟩

/-- C6 witness: with the side-table holding only another identity, the
snapshot for "c1" is built with issue time reported as unknown (issued
0, empty time string) and no exception, while a second disconnect
dispatch for "c1" raises `KeyError`. -/
theorem stale_timestamp_lookup_witness :
    (∃ s, serialize_socket envW [("other", 3)] "c1" "/chat" "e1" =
        Except.ok s ∧ s.handshake.issued = 0 ∧ s.handshake.time = "") ∧
    ((trigger_event envW [("other", 3)] "disconnect" "/chat" "c1" [] 7
        (Except.ok (0 : Nat))).1 = [] ∧
     (trigger_event envW [("other", 3)] "disconnect" "/chat" "c1" [] 7
        (Except.ok (0 : Nat))).2.2 = Except.error (PyErr.keyError "c1")) :=
  stale_timestamp_lookup envW [("other", 3)] "c1" "/chat" "e1" [] 7
    (Except.ok 0) (by decide) (by decide)

/-! ## Broadcast interceptor theorem (C7) -/

/-- C7: the wrapped namespace-wide emit delegates to the underlying
broadcast first; when the target namespace is the admin namespace
itself nothing is published; otherwise exactly one `event_sent`
notification is published per participant whose connection id is not
in the exclusion set, carrying `(namespace, recipient id,
[event name, ...arguments], timestamp)`; and a single excluded
identifier behaves exactly as the one-element list containing it (the
normalization before the membership test). -/
theorem emit_interceptor_spec (adminNs ns event : String) (data : EmitData)
    (skip : Skip) (participants : List (String × String)) (t s : String) :
    ((emit_wrapped adminNs ns event data skip participants t).head? =
      some EmitStep.delegate) ∧
    (ns = adminNs → emit_wrapped adminNs ns event data skip participants t =
      [EmitStep.delegate]) ∧
    (ns ≠ adminNs → emit_wrapped adminNs ns event data skip participants t =
      EmitStep.delegate ::
        (participants.filter
          (fun p => !(normalizeSkip skip).contains (some p.1))).map
          (fun p => EmitStep.publish
            (AdminMsg.eventSent ns p.1 (eventData event data) t))) ∧
    (emit_wrapped adminNs ns event data (Skip.one s) participants t =
      emit_wrapped adminNs ns event data (Skip.several [s]) participants t) := by
  refine ⟨?_, fun h => ?_, fun h => ?_, ?_⟩
  · simp [emit_wrapped]
  · simp [emit_wrapped, h]
  · simp [emit_wrapped, h]
  · simp [emit_wrapped, normalizeSkip]

/-- C7 witness: a broadcast to "/chat" with participants "c1" and
"c2", excluding the single id "c2", delegates first and then publishes
exactly one `event_sent`, to "c1", carrying the event name and
arguments. -/
theorem emit_interceptor_spec_witness :
    emit_wrapped "/admin" "/chat" "message" (EmitData.tuple ["hi"])
      (Skip.one "c2") [("c1", "e1"), ("c2", "e2")] "t0" =
      [EmitStep.delegate,
       EmitStep.publish
         (AdminMsg.eventSent "/chat" "c1" ["message", "hi"] "t0")] := by
  have h := emit_interceptor_spec "/admin" "/chat" "message"
    (EmitData.tuple ["hi"]) (Skip.one "c2") [("c1", "e1"), ("c2", "e2")]
    "t0" "c2"
  rw [h.2.2.1 (by decide)]
  rfl

end SocketIOAdmin
